import Mathlib

/-!
Shallow embedding of the OTP issuance & verification subsystem of the
National-Dialogue repository (src/shared/schema.ts `OtpService`,
src/server/storage.ts `DatabaseStorage` OTP operations).

The persistent store is modelled as a list of OTP verification records in
insertion order.  Time is modelled as an integer millisecond timestamp
(JavaScript `Date.now()`).  The SHA-256 digest is modelled as an abstract
function parameter `hash : String → String`; random code generation is
modelled by passing the drawn value explicitly.
-/

namespace NationalDialogue

/-- One row of the `otp_verifications` table. -/
structure OtpRecord where
  id : Nat
  identifier : String
  type : String
  code : String
  hashedCode : String
  attempts : Nat
  isUsed : Bool
  expiresAt : Int
  createdAt : Int
deriving DecidableEq, Repr

/-- The OTP record store: rows in insertion order. -/
abbrev Store := List OtpRecord

/-! ## Service constants (`OtpService` statics, src/shared/schema.ts:446-450) -/

def OTP_EXPIRY_MINUTES : Nat := 5
def MAX_ATTEMPTS : Nat := 3
def RATE_LIMIT_WINDOW : Nat := 60
def MAX_REQUESTS_PER_WINDOW : Nat := 3

/-- The OTP validity window in milliseconds (`OTP_EXPIRY_MINUTES * 60 * 1000`). -/
def OTP_EXPIRY_MS : Int := (OTP_EXPIRY_MINUTES : Int) * 60 * 1000

/-- The rate-limit window in milliseconds (`RATE_LIMIT_WINDOW * 1000`). -/
def RATE_WINDOW_MS : Int := (RATE_LIMIT_WINDOW : Int) * 1000

/-! ## Code generator (src/shared/schema.ts:455-457)

`crypto.randomInt(min, max)` draws uniformly from `[min, max)` — the upper
bound is EXCLUSIVE (Node.js API contract).  We model the draw by reducing an
arbitrary natural seed modulo the size of the half-open range. -/

/-- Model of Node `crypto.randomInt(minV, maxV)`: a value `minV + k` with
`k < maxV - minV`; every such value is reached by some seed. -/
def randomInt (minV maxV r : Nat) : Nat := minV + r % (maxV - minV)

/-- `OtpService.generateOtpCode`: `crypto.randomInt(100000, 999999).toString()`. -/
def generateOtpCode (r : Nat) : String := Nat.repr (randomInt 100000 999999 r)

/-! ## Identifier validation (src/shared/schema.ts:469-480) -/

/-- `/^\+[1-9]\d{1,14}$/` — a leading `+`, a first digit `1`–`9`, then 1 to 14
further digits. -/
def isValidPhoneNumber (phone : String) : Bool :=
  match phone.data with
  | '+' :: d :: rest =>
      decide ('1' ≤ d) && decide (d ≤ '9') && rest.all (·.isDigit)
        && decide (1 ≤ rest.length) && decide (rest.length ≤ 14)
  | _ => false

/-- A character allowed in the email atoms `[^\s@]`. -/
def isEmailAtomChar (c : Char) : Bool := !c.isWhitespace && c != '@'

/-- `/^[^\s@]+@[^\s@]+\.[^\s@]+$/` — nonempty local part, `@`, and a domain
containing an interior dot; no whitespace and no second `@` anywhere. -/
def isValidEmail (email : String) : Bool :=
  let cs := email.data
  let localPart := cs.takeWhile (fun c => c != '@')
  match cs.dropWhile (fun c => c != '@') with
  | '@' :: domain =>
      !localPart.isEmpty && localPart.all isEmailAtomChar
        && domain.all isEmailAtomChar && ((domain.drop 1).dropLast.contains '.')
  | _ => false

/-! ## Store operations (src/server/storage.ts:574-676) -/

/-- Row matching `identifier = i AND type = t`. -/
def matchesPair (i t : String) (r : OtpRecord) : Bool :=
  r.identifier == i && r.type == t

/-- Last step of the `ORDER BY created_at DESC` + take-first-row pattern:
the element with maximal `createdAt` (first such row on ties). -/
def latestByCreatedAt (l : List OtpRecord) : Option OtpRecord :=
  l.foldl
    (fun acc r =>
      match acc with
      | none => some r
      | some b => if b.createdAt < r.createdAt then some r else some b)
    none

/-- `DatabaseStorage.getOtpVerification`: the most recently created row with
the given identifier and type and `isUsed = false`. -/
def getOtpVerification (s : Store) (identifier ty : String) : Option OtpRecord :=
  latestByCreatedAt (s.filter fun r => matchesPair identifier ty r && !r.isUsed)

/-- `DatabaseStorage.markOtpAsUsed`: set `isUsed := true` on rows with this id. -/
def markOtpAsUsed (s : Store) (id : Nat) : Store :=
  s.map fun r => if r.id = id then { r with isUsed := true } else r

/-- `DatabaseStorage.incrementOtpAttempts`: `attempts := attempts + 1` on rows
with this id. -/
def incrementOtpAttempts (s : Store) (id : Nat) : Store :=
  s.map fun r => if r.id = id then { r with attempts := r.attempts + 1 } else r

/-- `DatabaseStorage.deleteOtpVerification`: delete ALL rows with the given
identifier and type. -/
def deleteOtpVerification (s : Store) (identifier ty : String) : Store :=
  s.filter fun r => !(matchesPair identifier ty r)

/-- `DatabaseStorage.cleanupExpiredOtps`: delete rows with `expiresAt ≤ now`. -/
def cleanupExpiredOtps (s : Store) (now : Int) : Store :=
  s.filter fun r => !(decide (r.expiresAt ≤ now))

/-- `DatabaseStorage.getRecentOtpRequests`: rows for the pair with
`createdAt ≥ since`. -/
def getRecentOtpRequests (s : Store) (identifier ty : String) (since : Int) :
    List OtpRecord :=
  s.filter fun r => matchesPair identifier ty r && decide (since ≤ r.createdAt)

/-- JavaScript `Math.round` on an exact rational: `⌊q + 1/2⌋`. -/
def jsRound (q : ℚ) : ℤ := ⌊q + 1 / 2⌋

/-- Result shape of `DatabaseStorage.getOtpStats`. -/
structure OtpStats where
  totalSent : Nat
  totalVerified : Nat
  successRate : ℤ
  recentRequests : Nat
deriving DecidableEq, Repr

/-- `DatabaseStorage.getOtpStats` (src/server/storage.ts:643-676). -/
def getOtpStats (s : Store) (now : Int) : OtpStats :=
  let last24Hours : Int := now - 24 * 60 * 60 * 1000
  let totalSent := s.length
  let totalVerified := (s.filter fun r => r.isUsed).length
  let recentRequests := (s.filter fun r => decide (last24Hours ≤ r.createdAt)).length
  let successRate : ℤ :=
    if 0 < totalSent then jsRound ((totalVerified : ℚ) / (totalSent : ℚ) * 100) else 0
  ⟨totalSent, totalVerified, successRate, recentRequests⟩

/-! ## Service results and error messages (src/shared/schema.ts) -/

/-- `OtpServiceResult` (data payload omitted). -/
structure OtpServiceResult where
  success : Bool
  message : Option String := none
  error : Option String := none
deriving DecidableEq, Repr

def invalidPhoneError : String :=
  "Invalid phone number format. Please include country code (e.g., +27821234567)"

def invalidEmailError : String := "Invalid email address format"

def rateLimitError : String :=
  "Too many requests. Please wait 60 seconds before requesting another code."

def notFoundError : String :=
  "No verification code found. Please request a new code."

def alreadyUsedError : String :=
  "Verification code has already been used. Please request a new code."

def expiredError : String :=
  "Verification code has expired. Please request a new code."

def tooManyAttemptsError : String :=
  "Too many failed attempts. Please request a new verification code."

/-- The mismatch message, with the remaining-attempts count and its
pluralization (src/shared/schema.ts:768). -/
def invalidCodeError (remaining : Int) : String :=
  "Invalid verification code. " ++ toString remaining ++ " "
    ++ (if remaining == 1 then "attempt" else "attempts") ++ " remaining."

def sentSuccessMessage (ty : String) : String :=
  "Verification code sent successfully via " ++ (if ty == "sms" then "SMS" else "email")

/-! ## Verifier (src/shared/schema.ts:718-791) -/

/-- `OtpService.verifyOtp`, returning the service result and the store after
the call.  `hash` models `hashOtpCode` (SHA-256); `now` is `new Date()`. -/
def verifyOtp (hash : String → String) (now : Int) (identifier code ty : String)
    (s : Store) : OtpServiceResult × Store :=
  match getOtpVerification s identifier ty with
  | none => ({ success := false, error := some notFoundError }, s)
  | some otpRecord =>
    if otpRecord.isUsed then
      ({ success := false, error := some alreadyUsedError }, s)
    else if otpRecord.expiresAt < now then
      ({ success := false, error := some expiredError },
        deleteOtpVerification s identifier ty)
    else if MAX_ATTEMPTS ≤ otpRecord.attempts then
      ({ success := false, error := some tooManyAttemptsError },
        deleteOtpVerification s identifier ty)
    else if code == otpRecord.code || hash code == otpRecord.hashedCode then
      ({ success := true, message := some "Verification successful" },
        markOtpAsUsed s otpRecord.id)
    else
      ({ success := false,
         error := some (invalidCodeError ((MAX_ATTEMPTS : Int) - (otpRecord.attempts + 1))) },
        incrementOtpAttempts s otpRecord.id)

/-! ## Issuance (src/shared/schema.ts:636-713) -/

/-- Kinds of store access performed by `requestOtp`, in order. -/
inductive StoreOp where
  | recentQuery
  | cleanup
  | create
  | deleteRollback
deriving DecidableEq, Repr

structure RequestOutcome where
  result : OtpServiceResult
  store : Store
  ops : List StoreOp
deriving DecidableEq, Repr

/-- The id the store generates for a new row: one above every existing id. -/
def freshId (s : Store) : Nat := (s.foldl (fun m r => max m r.id) 0) + 1

/-- `OtpService.checkRateLimit` (src/shared/schema.ts:485-489). -/
def checkRateLimit (s : Store) (now : Int) (identifier ty : String) : Bool :=
  decide ((getRecentOtpRequests s identifier ty (now - RATE_WINDOW_MS)).length
    < MAX_REQUESTS_PER_WINDOW)

/-- `OtpService.requestOtp`.  `code` is the generated code, `sendResult` the
outcome of the delivery dispatcher (`sendSmsOtp` / `sendEmailOtp`).  Also
records the trace of store accesses performed. -/
def requestOtp (hash : String → String) (now : Int) (identifier ty code : String)
    (sendResult : OtpServiceResult) (s : Store) : RequestOutcome :=
  if ty == "sms" && !isValidPhoneNumber identifier then
    ⟨{ success := false, error := some invalidPhoneError }, s, []⟩
  else if ty == "email" && !isValidEmail identifier then
    ⟨{ success := false, error := some invalidEmailError }, s, []⟩
  else if !checkRateLimit s now identifier ty then
    ⟨{ success := false, error := some rateLimitError }, s, [.recentQuery]⟩
  else
    let s1 := cleanupExpiredOtps s now
    let newRec : OtpRecord :=
      { id := freshId s1, identifier := identifier, type := ty,
        code := code, hashedCode := hash code,
        attempts := 0, isUsed := false,
        expiresAt := now + OTP_EXPIRY_MS, createdAt := now }
    let s2 := s1 ++ [newRec]
    if sendResult.success then
      ⟨{ success := true, message := some (sentSuccessMessage ty) }, s2,
        [.recentQuery, .cleanup, .create]⟩
    else
      ⟨sendResult, deleteOtpVerification s2 identifier ty,
        [.recentQuery, .cleanup, .create, .deleteRollback]⟩

/-! ## Operation sequences (for store-wide invariants) -/

/-- One external operation against the subsystem. -/
inductive OtpOp where
  | request (now : Int) (identifier ty code : String) (sendResult : OtpServiceResult)
  | verify (now : Int) (identifier code ty : String)

/-- The store after one operation. -/
def runOp (hash : String → String) (s : Store) : OtpOp → Store
  | .request now identifier ty code sendResult =>
      (requestOtp hash now identifier ty code sendResult s).store
  | .verify now identifier code ty =>
      (verifyOtp hash now identifier code ty s).2

/-- The store after a sequence of operations. -/
def runOps (hash : String → String) (s : Store) : List OtpOp → Store
  | [] => s
  | op :: rest => runOps hash (runOp hash s op) rest

/-! ## Basic lemmas about the store operations -/

theorem latestByCreatedAt_mem_aux (l : List OtpRecord) :
    ∀ (acc : Option OtpRecord) (r : OtpRecord),
      l.foldl
        (fun acc r =>
          match acc with
          | none => some r
          | some b => if b.createdAt < r.createdAt then some r else some b)
        acc = some r →
      acc = some r ∨ r ∈ l := by
  induction l with
  | nil => intro acc r h; exact Or.inl h
  | cons a t ih =>
    intro acc r h
    simp only [List.foldl_cons] at h
    rcases ih _ r h with h' | h'
    · cases acc with
      | none =>
        have ha : a = r := by simpa using h'
        exact Or.inr (ha ▸ List.mem_cons_self a t)
      | some b =>
        by_cases hc : b.createdAt < a.createdAt
        · have ha : a = r := by simpa [hc] using h'
          exact Or.inr (ha ▸ List.mem_cons_self a t)
        · exact Or.inl (by simpa [hc] using h')
    · exact Or.inr (List.mem_cons_of_mem _ h')

/-- The record selected by `latestByCreatedAt` is one of the input rows. -/
theorem latestByCreatedAt_mem {l : List OtpRecord} {r : OtpRecord}
    (h : latestByCreatedAt l = some r) : r ∈ l := by
  rcases latestByCreatedAt_mem_aux l none r h with h' | h'
  · cases h'
  · exact h'

theorem latestByCreatedAt_nil : latestByCreatedAt [] = none := rfl

theorem latestByCreatedAt_isSome_aux (l : List OtpRecord) :
    ∀ (b : OtpRecord),
      (l.foldl
        (fun acc r =>
          match acc with
          | none => some r
          | some b => if b.createdAt < r.createdAt then some r else some b)
        (some b)).isSome := by
  induction l with
  | nil => intro b; rfl
  | cons a t ih =>
    intro b
    simp only [List.foldl_cons]
    by_cases hc : b.createdAt < a.createdAt <;> simp [hc, ih]

/-- `latestByCreatedAt` returns a row whenever the input is nonempty. -/
theorem latestByCreatedAt_ne_none {l : List OtpRecord} (h : l ≠ []) :
    (latestByCreatedAt l).isSome := by
  cases l with
  | nil => exact absurd rfl h
  | cons a t => exact latestByCreatedAt_isSome_aux t a

/-- A successful lookup returns a stored row for the pair with `isUsed = false`. -/
theorem getOtpVerification_some {s : Store} {identifier ty : String} {r : OtpRecord}
    (h : getOtpVerification s identifier ty = some r) :
    r ∈ s ∧ r.identifier = identifier ∧ r.type = ty ∧ r.isUsed = false := by
  have hm := latestByCreatedAt_mem h
  rw [List.mem_filter] at hm
  obtain ⟨hmem, hp⟩ := hm
  simp only [matchesPair, Bool.and_eq_true, beq_iff_eq, Bool.not_eq_true'] at hp
  exact ⟨hmem, hp.1.1, hp.1.2, hp.2⟩

/-- The lookup returns `none` exactly when no unused row for the pair is stored. -/
theorem getOtpVerification_eq_none_iff (s : Store) (identifier ty : String) :
    getOtpVerification s identifier ty = none ↔
      (s.filter fun r => matchesPair identifier ty r && !r.isUsed) = [] := by
  constructor
  · intro h
    by_contra hne
    have := latestByCreatedAt_ne_none hne
    rw [getOtpVerification] at h
    rw [h] at this
    cases this
  · intro h
    rw [getOtpVerification, h]
    rfl

/-- Membership in the pair-keyed delete: exactly the rows of other pairs. -/
theorem mem_deleteOtpVerification {s : Store} {identifier ty : String} {r : OtpRecord} :
    r ∈ deleteOtpVerification s identifier ty ↔
      r ∈ s ∧ ¬(r.identifier = identifier ∧ r.type = ty) := by
  rw [deleteOtpVerification, List.mem_filter]
  simp only [matchesPair, Bool.not_eq_true', Bool.and_eq_false_iff, beq_eq_false_iff_ne,
    ne_eq, not_and]
  constructor
  · rintro ⟨hm, hp⟩
    refine ⟨hm, fun h1 => ?_⟩
    rcases hp with h | h
    · exact absurd h1 h
    · exact h
  · rintro ⟨hm, hp⟩
    refine ⟨hm, ?_⟩
    by_cases h1 : r.identifier = identifier
    · exact Or.inr (hp h1)
    · exact Or.inl h1

/-- After the pair-keyed delete, no row for the pair remains. -/
theorem deleteOtpVerification_pair_free (s : Store) (identifier ty : String) :
    ∀ r ∈ deleteOtpVerification s identifier ty,
      ¬(r.identifier = identifier ∧ r.type = ty) := by
  intro r hr
  exact (mem_deleteOtpVerification.mp hr).2

theorem freshId_aux (s : Store) : ∀ (a : Nat),
    a ≤ s.foldl (fun m r => max m r.id) a ∧
    ∀ r ∈ s, r.id ≤ s.foldl (fun m r => max m r.id) a := by
  induction s with
  | nil => intro a; exact ⟨le_refl _, by simp⟩
  | cons x t ih =>
    intro a
    refine ⟨?_, ?_⟩
    · exact le_trans (le_max_left a x.id) (ih (max a x.id)).1
    · intro r hr
      rcases List.mem_cons.mp hr with rfl | hrt
      · exact le_trans (le_max_right a r.id) (ih (max a r.id)).1
      · exact (ih (max a x.id)).2 r hrt

/-- Every stored id is strictly below the freshly generated id. -/
theorem freshId_gt {s : Store} {r : OtpRecord} (h : r ∈ s) : r.id < freshId s :=
  Nat.lt_succ_of_le ((freshId_aux s 0).2 r h)

/-! ## Store well-formedness and its preservation -/

/-- All stored attempt counters are within the configured maximum. -/
def AttemptsBounded (s : Store) : Prop := ∀ r ∈ s, r.attempts ≤ MAX_ATTEMPTS

/-- Stored ids are pairwise distinct (database primary keys). -/
def IdsNodup (s : Store) : Prop := (s.map OtpRecord.id).Nodup

/-- Well-formed store: distinct ids and bounded attempt counters. -/
def WF (s : Store) : Prop := IdsNodup s ∧ AttemptsBounded s

theorem WF_nil : WF [] := ⟨List.nodup_nil, by intro r hr; cases hr⟩

theorem WF_filter {s : Store} (p : OtpRecord → Bool) (h : WF s) : WF (s.filter p) := by
  refine ⟨?_, ?_⟩
  · exact h.1.sublist ((s.filter_sublist).map OtpRecord.id)
  · intro r hr
    exact h.2 r (List.mem_filter.mp hr).1

theorem map_id_markOtpAsUsed (s : Store) (id₀ : Nat) :
    (markOtpAsUsed s id₀).map OtpRecord.id = s.map OtpRecord.id := by
  rw [markOtpAsUsed, List.map_map]
  apply List.map_congr_left
  intro r _
  by_cases h : r.id = id₀ <;> simp [h]

theorem map_id_incrementOtpAttempts (s : Store) (id₀ : Nat) :
    (incrementOtpAttempts s id₀).map OtpRecord.id = s.map OtpRecord.id := by
  rw [incrementOtpAttempts, List.map_map]
  apply List.map_congr_left
  intro r _
  by_cases h : r.id = id₀ <;> simp [h]

theorem WF_markOtpAsUsed {s : Store} (id₀ : Nat) (h : WF s) : WF (markOtpAsUsed s id₀) := by
  refine ⟨?_, ?_⟩
  · rw [IdsNodup, map_id_markOtpAsUsed]; exact h.1
  · intro r' hr'
    obtain ⟨r, hr, hmap⟩ := List.mem_map.mp hr'
    by_cases hid : r.id = id₀
    · rw [if_pos hid] at hmap
      rw [← hmap]
      exact h.2 r hr
    · rw [if_neg hid] at hmap
      rw [← hmap]
      exact h.2 r hr

theorem WF_incrementOtpAttempts {s : Store} {id₀ : Nat} (h : WF s)
    (hlt : ∀ r ∈ s, r.id = id₀ → r.attempts < MAX_ATTEMPTS) :
    WF (incrementOtpAttempts s id₀) := by
  refine ⟨?_, ?_⟩
  · rw [IdsNodup, map_id_incrementOtpAttempts]; exact h.1
  · intro r' hr'
    obtain ⟨r, hr, hmap⟩ := List.mem_map.mp hr'
    by_cases hid : r.id = id₀
    · rw [if_pos hid] at hmap
      rw [← hmap]
      exact hlt r hr hid
    · rw [if_neg hid] at hmap
      rw [← hmap]
      exact h.2 r hr

/-- `verifyOtp` preserves well-formedness of the store. -/
theorem WF_verifyOtp (hash : String → String) (now : Int) (identifier code ty : String)
    {s : Store} (h : WF s) : WF (verifyOtp hash now identifier code ty s).2 := by
  rw [verifyOtp]
  cases hlook : getOtpVerification s identifier ty with
  | none => exact h
  | some otpRecord =>
    obtain ⟨hmem, -, -, -⟩ := getOtpVerification_some hlook
    dsimp only
    split_ifs with h1 h2 h3 h4
    · exact h
    · exact WF_filter _ h
    · exact WF_filter _ h
    · exact WF_markOtpAsUsed _ h
    · refine WF_incrementOtpAttempts h ?_
      intro r hr hid
      have : r = otpRecord :=
        List.inj_on_of_nodup_map h.1 hr hmem hid
      rw [this]
      exact Nat.lt_of_not_le h3

/-- `requestOtp` preserves well-formedness of the store. -/
theorem WF_requestOtp (hash : String → String) (now : Int) (identifier ty code : String)
    (sendResult : OtpServiceResult) {s : Store} (h : WF s) :
    WF (requestOtp hash now identifier ty code sendResult s).store := by
  rw [requestOtp]
  have hwf1 : WF (cleanupExpiredOtps s now) := WF_filter _ h
  set s1 := cleanupExpiredOtps s now with hs1
  have hfresh : (freshId s1) ∉ s1.map OtpRecord.id := by
    intro hmem
    obtain ⟨r, hr, hid⟩ := List.mem_map.mp hmem
    exact absurd hid (Nat.ne_of_lt (freshId_gt hr))
  have hwf2 : WF (s1 ++
      [{ id := freshId s1, identifier := identifier, type := ty,
         code := code, hashedCode := hash code,
         attempts := 0, isUsed := false,
         expiresAt := now + OTP_EXPIRY_MS, createdAt := now }]) := by
    constructor
    · rw [IdsNodup, List.map_append, List.nodup_append]
      refine ⟨hwf1.1, List.nodup_singleton _, ?_⟩
      intro a ha hb
      simp only [List.map_cons, List.map_nil, List.mem_singleton] at hb
      rw [hb] at ha
      exact hfresh ha
    · intro r hr
      rcases List.mem_append.mp hr with hr1 | hr2
      · exact hwf1.2 r hr1
      · rw [List.mem_singleton] at hr2
        rw [hr2]
        exact Nat.zero_le _
  split_ifs
  · exact h
  · exact h
  · exact h
  · exact hwf2
  · exact WF_filter _ hwf2

/-! ## Branch characterizations of the verifier and the issuance flow -/

theorem verifyOtp_not_found {hash : String → String} {now : Int}
    {identifier code ty : String} {s : Store}
    (hlook : getOtpVerification s identifier ty = none) :
    verifyOtp hash now identifier code ty s =
      ({ success := false, error := some notFoundError }, s) := by
  rw [verifyOtp, hlook]

theorem verifyOtp_expired {hash : String → String} {now : Int}
    {identifier code ty : String} {s : Store} {otpRecord : OtpRecord}
    (hlook : getOtpVerification s identifier ty = some otpRecord)
    (hexp : otpRecord.expiresAt < now) :
    verifyOtp hash now identifier code ty s =
      ({ success := false, error := some expiredError },
        deleteOtpVerification s identifier ty) := by
  obtain ⟨-, -, -, hused⟩ := getOtpVerification_some hlook
  rw [verifyOtp, hlook]
  simp [hused, hexp]

theorem verifyOtp_too_many {hash : String → String} {now : Int}
    {identifier code ty : String} {s : Store} {otpRecord : OtpRecord}
    (hlook : getOtpVerification s identifier ty = some otpRecord)
    (hexp : ¬otpRecord.expiresAt < now)
    (hatt : MAX_ATTEMPTS ≤ otpRecord.attempts) :
    verifyOtp hash now identifier code ty s =
      ({ success := false, error := some tooManyAttemptsError },
        deleteOtpVerification s identifier ty) := by
  obtain ⟨-, -, -, hused⟩ := getOtpVerification_some hlook
  rw [verifyOtp, hlook]
  simp [hused, hexp, hatt]

theorem verifyOtp_match {hash : String → String} {now : Int}
    {identifier code ty : String} {s : Store} {otpRecord : OtpRecord}
    (hlook : getOtpVerification s identifier ty = some otpRecord)
    (hexp : ¬otpRecord.expiresAt < now)
    (hatt : otpRecord.attempts < MAX_ATTEMPTS)
    (hcode : code = otpRecord.code ∨ hash code = otpRecord.hashedCode) :
    verifyOtp hash now identifier code ty s =
      ({ success := true, message := some "Verification successful" },
        markOtpAsUsed s otpRecord.id) := by
  obtain ⟨-, -, -, hused⟩ := getOtpVerification_some hlook
  rw [verifyOtp, hlook]
  rcases hcode with hc | hc <;>
    simp [hused, hexp, Nat.not_le_of_lt hatt, hc]

theorem verifyOtp_mismatch {hash : String → String} {now : Int}
    {identifier code ty : String} {s : Store} {otpRecord : OtpRecord}
    (hlook : getOtpVerification s identifier ty = some otpRecord)
    (hexp : ¬otpRecord.expiresAt < now)
    (hatt : otpRecord.attempts < MAX_ATTEMPTS)
    (hc1 : code ≠ otpRecord.code)
    (hc2 : hash code ≠ otpRecord.hashedCode) :
    verifyOtp hash now identifier code ty s =
      ({ success := false,
         error := some (invalidCodeError ((MAX_ATTEMPTS : Int) - (otpRecord.attempts + 1))) },
        incrementOtpAttempts s otpRecord.id) := by
  obtain ⟨-, -, -, hused⟩ := getOtpVerification_some hlook
  rw [verifyOtp, hlook]
  simp [hused, hexp, Nat.not_le_of_lt hatt, hc1, hc2]

/-- The new row created by a successful issuance at time `now`. -/
def newOtpRecord (hash : String → String) (now : Int) (identifier ty code : String)
    (s : Store) : OtpRecord :=
  { id := freshId (cleanupExpiredOtps s now), identifier := identifier, type := ty,
    code := code, hashedCode := hash code,
    attempts := 0, isUsed := false,
    expiresAt := now + OTP_EXPIRY_MS, createdAt := now }

theorem requestOtp_invalid_phone {hash : String → String} {now : Int}
    {identifier code : String} {sendResult : OtpServiceResult} {s : Store}
    (hv : isValidPhoneNumber identifier = false) :
    requestOtp hash now identifier "sms" code sendResult s =
      ⟨{ success := false, error := some invalidPhoneError }, s, []⟩ := by
  rw [requestOtp]
  simp [hv]

theorem requestOtp_valid_cases {hash : String → String} {now : Int}
    {identifier ty code : String} {sendResult : OtpServiceResult} {s : Store}
    (hv1 : ty = "sms" → isValidPhoneNumber identifier = true)
    (hv2 : ty = "email" → isValidEmail identifier = true) :
    requestOtp hash now identifier ty code sendResult s =
      (if checkRateLimit s now identifier ty then
        (if sendResult.success then
          ⟨{ success := true, message := some (sentSuccessMessage ty) },
            cleanupExpiredOtps s now ++ [newOtpRecord hash now identifier ty code s],
            [.recentQuery, .cleanup, .create]⟩
        else
          ⟨sendResult,
            deleteOtpVerification
              (cleanupExpiredOtps s now ++ [newOtpRecord hash now identifier ty code s])
              identifier ty,
            [.recentQuery, .cleanup, .create, .deleteRollback]⟩)
      else ⟨{ success := false, error := some rateLimitError }, s, [.recentQuery]⟩) := by
  rw [requestOtp]
  have hsms : (ty == "sms" && !isValidPhoneNumber identifier) = false := by
    by_cases h : ty = "sms"
    · simp [h, hv1 h]
    · simp [h]
  have hemail : (ty == "email" && !isValidEmail identifier) = false := by
    by_cases h : ty = "email"
    · simp [h, hv2 h]
    · simp [h]
  rw [hsms, hemail]
  by_cases hrl : checkRateLimit s now identifier ty
  · by_cases hsend : sendResult.success <;> simp [newOtpRecord, hrl, hsend]
  · simp [newOtpRecord, hrl]

/-- A whole operation sequence preserves well-formedness. -/
theorem WF_runOps (hash : String → String) {s : Store} (h : WF s) (ops : List OtpOp) :
    WF (runOps hash s ops) := by
  induction ops generalizing s with
  | nil => exact h
  | cons op rest ih =>
    refine ih ?_
    cases op with
    | request now identifier ty code sendResult =>
      exact WF_requestOtp hash now identifier ty code sendResult h
    | verify now identifier code ty =>
      exact WF_verifyOtp hash now identifier code ty h

/-! ## Decimal representation length -/

theorem toDigitsCore_length_mono (b : Nat) : ∀ (f n : Nat) (l : List Char),
    l.length ≤ (Nat.toDigitsCore b f n l).length := by
  intro f
  induction f with
  | zero => intro n l; simp [Nat.toDigitsCore]
  | succ f ih =>
    intro n l
    rw [Nat.toDigitsCore]
    by_cases h : n / b = 0
    · simp [h]
    · simp only [h, if_false]
      calc l.length ≤ (Nat.digitChar (n % b) :: l).length := by simp
        _ ≤ _ := ih _ _

theorem toDigitsCore_length_lower : ∀ (e f n : Nat) (l : List Char),
    n < f → 10 ^ e ≤ n → e + 1 + l.length ≤ (Nat.toDigitsCore 10 f n l).length := by
  intro e
  induction e with
  | zero =>
    intro f n l hf hn
    cases f with
    | zero => omega
    | succ f =>
      rw [Nat.toDigitsCore]
      by_cases h : n / 10 = 0
      · simp [h]; omega
      · simp only [h, if_false]
        have := toDigitsCore_length_mono 10 f (n / 10) (Nat.digitChar (n % 10) :: l)
        simp at this
        omega
  | succ e ih =>
    intro f n l hf hn
    cases f with
    | zero => omega
    | succ f =>
      have hpow : 0 < 10 ^ e := Nat.pos_pow_of_pos e (by norm_num)
      have hdiv : 10 ^ e ≤ n / 10 := by
        rw [Nat.le_div_iff_mul_le (by norm_num)]
        calc 10 ^ e * 10 = 10 ^ (e + 1) := by rw [Nat.pow_succ]
          _ ≤ n := hn
      have hne : n / 10 ≠ 0 := by
        intro h
        rw [h] at hdiv
        omega
      rw [Nat.toDigitsCore]
      simp only [hne, if_false]
      have hlt : n / 10 < f := by
        have h1 : n / 10 < n := Nat.div_lt_self (by omega) (by norm_num)
        omega
      have := ih f (n / 10) (Nat.digitChar (n % 10) :: l) hlt hdiv
      simp at this
      omega

/-- The decimal string of a number in `[100000, 999999]` has exactly 6 characters. -/
theorem repr_length_six {n : Nat} (h1 : 100000 ≤ n) (h2 : n < 1000000) :
    (Nat.repr n).length = 6 := by
  have upper : (Nat.repr n).length ≤ 6 :=
    Nat.repr_length n 6 (by norm_num) (by norm_num; omega)
  have lower : 5 + 1 + ([] : List Char).length ≤ (Nat.toDigitsCore 10 (n + 1) n []).length :=
    toDigitsCore_length_lower 5 (n + 1) n [] (Nat.lt_succ_self n) (by norm_num; omega)
  have hrepr : (Nat.repr n).length = (Nat.toDigitsCore 10 (n + 1) n []).length := by
    simp only [Nat.repr, Nat.toDigits, String.length, List.asString]
  omega

/-! ## Concrete test fixtures -/

/-- A concrete stand-in for the SHA-256 digest in closed computations. -/
def demoHash (s : String) : String := s ++ "#"

/-- A pending record for `(+27821234567, sms)` created at time 0. -/
def demoRecord : OtpRecord :=
  { id := 1, identifier := "+27821234567", type := "sms", code := "123456",
    hashedCode := demoHash "123456", attempts := 0, isUsed := false,
    expiresAt := 300000, createdAt := 0 }

/-- The same record after a successful verification (`isUsed = true`). -/
def demoUsedRecord : OtpRecord := { demoRecord with isUsed := true }

/-- A successful dispatcher outcome. -/
def okSend : OtpServiceResult := { success := true, message := some "ok" }

/-- A failed dispatcher outcome. -/
def failSend : OtpServiceResult := { success := false, error := some "provider failure" }

/-! ## Claims -/

/-- C2, counterexample: `crypto.randomInt(100000, 999999)` has an exclusive
upper bound, so the value 999999 is never produced, contradicting the claim
that every value of `[100000, 999999]`, including 999999, is a possible
output. -/
theorem randomInt_never_999999 : ¬∃ r : Nat, randomInt 100000 999999 r = 999999 := by
  rintro ⟨r, hr⟩
  rw [randomInt] at hr
  omega

/-- C2 (amended): every generated code is the decimal string of a value drawn
from `[100000, 999998]` (6 digits, never a leading zero), and the draw is
uniform over exactly that range: each value in `[100000, 999998]` is hit by
exactly one seed residue. -/
theorem generateOtpCode_range_and_length :
    (∀ r : Nat,
      100000 ≤ randomInt 100000 999999 r ∧
      randomInt 100000 999999 r ≤ 999998 ∧
      generateOtpCode r = Nat.repr (randomInt 100000 999999 r) ∧
      (generateOtpCode r).length = 6) ∧
    (∀ v : Nat, 100000 ≤ v → v ≤ 999998 →
      ∃! r : Nat, r < 899999 ∧ randomInt 100000 999999 r = v) := by
  constructor
  · intro r
    have hmod : r % 899999 < 899999 := Nat.mod_lt _ (by norm_num)
    have hlo : 100000 ≤ randomInt 100000 999999 r := by rw [randomInt]; omega
    have hhi : randomInt 100000 999999 r ≤ 999998 := by rw [randomInt]; omega
    refine ⟨hlo, hhi, rfl, ?_⟩
    rw [generateOtpCode]
    exact repr_length_six hlo (by omega)
  · intro v hv1 hv2
    refine ⟨v - 100000, ⟨by omega, ?_⟩, ?_⟩
    · rw [randomInt]
      have : (v - 100000) % 899999 = v - 100000 := Nat.mod_eq_of_lt (by omega)
      omega
    · rintro y ⟨hy1, hy2⟩
      rw [randomInt] at hy2
      have : y % 899999 = y := Nat.mod_eq_of_lt (by omega)
      omega

/-- C2, witness: the amended theorem instantiated at seed 0 and at the
extreme value 999998. -/
theorem generateOtpCode_range_and_length_witness :
    (100000 ≤ randomInt 100000 999999 0 ∧
      randomInt 100000 999999 0 ≤ 999998 ∧
      generateOtpCode 0 = Nat.repr (randomInt 100000 999999 0) ∧
      (generateOtpCode 0).length = 6) ∧
    (∃! r : Nat, r < 899999 ∧ randomInt 100000 999999 r = 999998) :=
  ⟨generateOtpCode_range_and_length.1 0,
    generateOtpCode_range_and_length.2 999998 (by norm_num) (by norm_num)⟩

/-- After marking the only unused row of a pair as used, the lookup for that
pair returns nothing. -/
theorem getOtpVerification_markOtpAsUsed_eq_none
    {s : Store} {identifier ty : String} {id₀ : Nat}
    (huniq : ∀ r ∈ s, r.identifier = identifier → r.type = ty → r.isUsed = false →
      r.id = id₀) :
    getOtpVerification (markOtpAsUsed s id₀) identifier ty = none := by
  rw [getOtpVerification_eq_none_iff, List.filter_eq_nil_iff]
  intro r' hr'
  obtain ⟨r, hr, hmap⟩ := List.mem_map.mp hr'
  by_cases hid : r.id = id₀
  · rw [if_pos hid] at hmap
    rw [← hmap]
    simp [matchesPair]
  · rw [if_neg hid] at hmap
    rw [← hmap]
    simp only [matchesPair, Bool.and_eq_true, beq_iff_eq, Bool.not_eq_true', not_and]
    intro hp hu
    exact absurd (huniq r hr hp.1 hp.2 hu) hid

/-- C1, counterexample: with the store holding exactly the freshly used record
(`isUsed = true`, no other pending record for the pair), a second `verifyOtp`
call fails with the "no code found" error, not the "already used" error the
claim requires. -/
theorem secondVerify_notFound_counterexample :
    (verifyOtp demoHash 10 "+27821234567" "123456" "sms" [demoUsedRecord]).1.error
        = some notFoundError ∧
    (verifyOtp demoHash 10 "+27821234567" "123456" "sms" [demoUsedRecord]).1.error
        ≠ some alreadyUsedError := by
  refine ⟨rfl, ?_⟩
  intro h
  rw [show (verifyOtp demoHash 10 "+27821234567" "123456" "sms" [demoUsedRecord]).1.error
      = some notFoundError from rfl] at h
  exact absurd (Option.some.inj h) (by decide)

/-- C1 (amended): a freshly issued code verifies successfully exactly once;
because `getOtpVerification` only returns rows with `isUsed = false`, a second
verification attempt with the same code fails with the "no code found" error —
not the "already used" error (that branch is unreachable through this store). -/
theorem secondVerify_fails_with_notFound
    (hash : String → String) (now now2 : Int) (identifier ty code : String)
    (s : Store) (otpRecord : OtpRecord)
    (hlook : getOtpVerification s identifier ty = some otpRecord)
    (huniq : ∀ r ∈ s, r.identifier = identifier → r.type = ty → r.isUsed = false →
      r.id = otpRecord.id)
    (hexp : ¬otpRecord.expiresAt < now)
    (hatt : otpRecord.attempts < MAX_ATTEMPTS)
    (hcode : code = otpRecord.code) :
    (verifyOtp hash now identifier code ty s).1.success = true ∧
    verifyOtp hash now2 identifier code ty (verifyOtp hash now identifier code ty s).2 =
      ({ success := false, error := some notFoundError },
        (verifyOtp hash now identifier code ty s).2) ∧
    notFoundError ≠ alreadyUsedError := by
  have hfirst := @verifyOtp_match hash now identifier code ty s otpRecord hlook hexp hatt (Or.inl hcode)
  refine ⟨by rw [hfirst], ?_, by decide⟩
  have hnone : getOtpVerification (verifyOtp hash now identifier code ty s).2 identifier ty
      = none := by
    rw [hfirst]
    exact getOtpVerification_markOtpAsUsed_eq_none huniq
  exact verifyOtp_not_found hnone

/-- C1, witness: the amended theorem at the concrete one-record store. -/
theorem secondVerify_fails_with_notFound_witness :
    (verifyOtp demoHash 10 "+27821234567" "123456" "sms" [demoRecord]).1.success = true ∧
    verifyOtp demoHash 20 "+27821234567" "123456" "sms"
        (verifyOtp demoHash 10 "+27821234567" "123456" "sms" [demoRecord]).2 =
      ({ success := false, error := some notFoundError },
        (verifyOtp demoHash 10 "+27821234567" "123456" "sms" [demoRecord]).2) ∧
    notFoundError ≠ alreadyUsedError :=
  secondVerify_fails_with_notFound demoHash 10 20 "+27821234567" "sms" "123456"
    [demoRecord] demoRecord (by decide) (by decide) (by decide) (by decide) rfl

/-- C4, counterexample: after three failed verifications the record has
reached the maximum of 3 attempts, yet it is NOT deleted: it is still stored
and still returned by the lookup; deletion happens only on the next
verification attempt. -/
theorem maxAttempts_still_queryable_counterexample :
    (verifyOtp demoHash 12 "+27821234567" "000000" "sms"
        (verifyOtp demoHash 11 "+27821234567" "000000" "sms"
          (verifyOtp demoHash 10 "+27821234567" "000000" "sms" [demoRecord]).2).2).2
      = [{ demoRecord with attempts := 3 }] ∧
    getOtpVerification
        (verifyOtp demoHash 12 "+27821234567" "000000" "sms"
          (verifyOtp demoHash 11 "+27821234567" "000000" "sms"
            (verifyOtp demoHash 10 "+27821234567" "000000" "sms" [demoRecord]).2).2).2
        "+27821234567" "sms"
      = some { demoRecord with attempts := 3 } := by
  exact ⟨rfl, rfl⟩

/-- C4 (amended): under any sequence of issuance and verification operations
from an empty store, no record's attempts counter ever exceeds the maximum of
3; a record that has reached the maximum is deleted (together with all rows of
its pair) by the next verification attempt, which fails with the
"too many attempts" error — the record is not deleted at the moment of the
third failed increment itself. -/
theorem attempts_bounded_and_deleted_on_next_verify :
    (∀ (hash : String → String) (ops : List OtpOp),
      ∀ r ∈ runOps hash [] ops, r.attempts ≤ MAX_ATTEMPTS) ∧
    (∀ (hash : String → String) (now : Int) (identifier code ty : String)
        (s : Store) (otpRecord : OtpRecord),
      getOtpVerification s identifier ty = some otpRecord →
      ¬otpRecord.expiresAt < now →
      MAX_ATTEMPTS ≤ otpRecord.attempts →
      (verifyOtp hash now identifier code ty s).1.error = some tooManyAttemptsError ∧
      ∀ r ∈ (verifyOtp hash now identifier code ty s).2,
        ¬(r.identifier = identifier ∧ r.type = ty)) := by
  constructor
  · intro hash ops r hr
    exact (WF_runOps hash WF_nil ops).2 r hr
  · intro hash now identifier code ty s otpRecord hlook hexp hatt
    have h := @verifyOtp_too_many hash now identifier code ty s otpRecord hlook hexp hatt
    constructor
    · rw [h]
    · rw [h]
      exact deleteOtpVerification_pair_free s identifier ty

/-- C4, witness: the invariant at a concrete operation sequence, and the
deletion behavior at a concrete record that has reached the maximum. -/
theorem attempts_bounded_and_deleted_on_next_verify_witness :
    (∀ r ∈ runOps demoHash []
        [.request 0 "+27821234567" "sms" "123456" okSend,
         .verify 10 "+27821234567" "000000" "sms"],
      r.attempts ≤ MAX_ATTEMPTS) ∧
    ((verifyOtp demoHash 12 "+27821234567" "999999" "sms"
        [{ demoRecord with attempts := 3 }]).1.error = some tooManyAttemptsError ∧
      ∀ r ∈ (verifyOtp demoHash 12 "+27821234567" "999999" "sms"
          [{ demoRecord with attempts := 3 }]).2,
        ¬(r.identifier = "+27821234567" ∧ r.type = "sms")) :=
  ⟨attempts_bounded_and_deleted_on_next_verify.1 demoHash
      [.request 0 "+27821234567" "sms" "123456" okSend,
       .verify 10 "+27821234567" "000000" "sms"],
    attempts_bounded_and_deleted_on_next_verify.2 demoHash 12 "+27821234567" "999999"
      "sms" [{ demoRecord with attempts := 3 }] { demoRecord with attempts := 3 }
      (by decide) (by decide) (by decide)⟩

/-- C5: on a code that matches neither the stored plaintext nor, by digest,
the stored digest, the record's attempts counter is incremented by one and the
error message reports `max - (attempts + 1)` remaining attempts — computed
after the increment — using the singular "attempt" exactly when that count
is 1. -/
theorem mismatch_increments_and_reports_remaining
    (hash : String → String) (now : Int) (identifier code ty : String)
    (s : Store) (otpRecord : OtpRecord)
    (hlook : getOtpVerification s identifier ty = some otpRecord)
    (hexp : ¬otpRecord.expiresAt < now)
    (hatt : otpRecord.attempts < MAX_ATTEMPTS)
    (hc1 : code ≠ otpRecord.code)
    (hc2 : hash code ≠ otpRecord.hashedCode) :
    (verifyOtp hash now identifier code ty s).1.success = false ∧
    (verifyOtp hash now identifier code ty s).2 = incrementOtpAttempts s otpRecord.id ∧
    (∀ r ∈ s, r.id = otpRecord.id →
      { r with attempts := r.attempts + 1 } ∈ (verifyOtp hash now identifier code ty s).2) ∧
    (verifyOtp hash now identifier code ty s).1.error =
      some ("Invalid verification code. "
        ++ toString ((MAX_ATTEMPTS : Int) - (otpRecord.attempts + 1)) ++ " "
        ++ (if (MAX_ATTEMPTS : Int) - (otpRecord.attempts + 1) = 1
            then "attempt" else "attempts")
        ++ " remaining.") := by
  have h := @verifyOtp_mismatch hash now identifier code ty s otpRecord hlook hexp hatt hc1 hc2
  refine ⟨by rw [h], by rw [h], ?_, ?_⟩
  · intro r hr hid
    rw [h]
    dsimp only
    rw [incrementOtpAttempts]
    have : { r with attempts := r.attempts + 1 }
        = (fun r => if r.id = otpRecord.id
            then { r with attempts := r.attempts + 1 } else r) r := by
      simp [hid]
    rw [this]
    exact List.mem_map_of_mem _ hr
  · rw [h]
    dsimp only
    rw [invalidCodeError]
    congr 1
    by_cases h1 : (MAX_ATTEMPTS : Int) - (otpRecord.attempts + 1) = 1
    · simp [h1]
    · simp [h1]

/-- C5, witness: second failed attempt on a one-attempt record yields
"1 attempt remaining" (singular) and the bumped record. -/
theorem mismatch_increments_and_reports_remaining_witness :
    (verifyOtp demoHash 10 "+27821234567" "000000" "sms"
        [{ demoRecord with attempts := 1 }]).1.success = false ∧
    (verifyOtp demoHash 10 "+27821234567" "000000" "sms"
        [{ demoRecord with attempts := 1 }]).2
      = incrementOtpAttempts [{ demoRecord with attempts := 1 }] demoRecord.id ∧
    (∀ r ∈ [{ demoRecord with attempts := 1 }], r.id = ({ demoRecord with attempts := 1 } : OtpRecord).id →
      { r with attempts := r.attempts + 1 }
        ∈ (verifyOtp demoHash 10 "+27821234567" "000000" "sms"
            [{ demoRecord with attempts := 1 }]).2) ∧
    (verifyOtp demoHash 10 "+27821234567" "000000" "sms"
        [{ demoRecord with attempts := 1 }]).1.error =
      some ("Invalid verification code. "
        ++ toString ((MAX_ATTEMPTS : Int) - (({ demoRecord with attempts := 1 } : OtpRecord).attempts + 1)) ++ " "
        ++ (if (MAX_ATTEMPTS : Int) - (({ demoRecord with attempts := 1 } : OtpRecord).attempts + 1) = 1
            then "attempt" else "attempts")
        ++ " remaining.") :=
  mismatch_increments_and_reports_remaining demoHash 10 "+27821234567" "000000" "sms"
    [{ demoRecord with attempts := 1 }] { demoRecord with attempts := 1 }
    (by decide) (by decide) (by decide) (by decide) (by decide)

/-- C6: a looked-up record whose expiry timestamp is in the past fails
verification with the "expired" error and is deleted, with no condition on
its attempts counter or usage flag beyond what the lookup enforces. -/
theorem expired_verify_fails_and_deletes
    (hash : String → String) (now : Int) (identifier code ty : String)
    (s : Store) (otpRecord : OtpRecord)
    (hlook : getOtpVerification s identifier ty = some otpRecord)
    (hexp : otpRecord.expiresAt < now) :
    verifyOtp hash now identifier code ty s =
      ({ success := false, error := some expiredError },
        deleteOtpVerification s identifier ty) ∧
    otpRecord ∉ (verifyOtp hash now identifier code ty s).2 := by
  have h := @verifyOtp_expired hash now identifier code ty s otpRecord hlook hexp
  obtain ⟨-, hid, hty, -⟩ := getOtpVerification_some hlook
  refine ⟨h, ?_⟩
  rw [h]
  intro hmem
  exact (mem_deleteOtpVerification.mp hmem).2 ⟨hid, hty⟩

/-- C6, witness: an expired record with `attempts = 0` and `isUsed = false`. -/
theorem expired_verify_fails_and_deletes_witness :
    verifyOtp demoHash 300001 "+27821234567" "123456" "sms" [demoRecord] =
      ({ success := false, error := some expiredError },
        deleteOtpVerification [demoRecord] "+27821234567" "sms") ∧
    demoRecord ∉ (verifyOtp demoHash 300001 "+27821234567" "123456" "sms" [demoRecord]).2 :=
  expired_verify_fails_and_deletes demoHash 300001 "+27821234567" "123456" "sms"
    [demoRecord] demoRecord (by decide) (by decide)

/-- When validation and the rate limit pass but the dispatcher fails, the
whole call is the rollback branch. -/
theorem requestOtp_send_failed {hash : String → String} {now : Int}
    {identifier ty code : String} {sendResult : OtpServiceResult} {s : Store}
    (hv1 : ty = "sms" → isValidPhoneNumber identifier = true)
    (hv2 : ty = "email" → isValidEmail identifier = true)
    (hrl : checkRateLimit s now identifier ty = true)
    (hsend : sendResult.success = false) :
    requestOtp hash now identifier ty code sendResult s =
      ⟨sendResult,
        deleteOtpVerification
          (cleanupExpiredOtps s now ++ [newOtpRecord hash now identifier ty code s])
          identifier ty,
        [.recentQuery, .cleanup, .create, .deleteRollback]⟩ := by
  rw [requestOtp_valid_cases hv1 hv2]
  simp [hrl, hsend]

/-- C7: if delivery dispatch fails after the record was created, `requestOtp`
deletes the pair's rows (so the just-created record is gone and no record for
the pair remains active) and returns the dispatch failure as its result. -/
theorem dispatch_failure_rolls_back
    (hash : String → String) (now : Int) (identifier ty code : String)
    (sendResult : OtpServiceResult) (s : Store)
    (hv1 : ty = "sms" → isValidPhoneNumber identifier = true)
    (hv2 : ty = "email" → isValidEmail identifier = true)
    (hrl : checkRateLimit s now identifier ty = true)
    (hsend : sendResult.success = false) :
    (requestOtp hash now identifier ty code sendResult s).result = sendResult ∧
    (requestOtp hash now identifier ty code sendResult s).store =
      deleteOtpVerification
        (cleanupExpiredOtps s now ++ [newOtpRecord hash now identifier ty code s])
        identifier ty ∧
    newOtpRecord hash now identifier ty code s ∉
      (requestOtp hash now identifier ty code sendResult s).store ∧
    (∀ r ∈ (requestOtp hash now identifier ty code sendResult s).store,
      ¬(r.identifier = identifier ∧ r.type = ty)) := by
  have h := @requestOtp_send_failed hash now identifier ty code sendResult s hv1 hv2 hrl hsend
  refine ⟨by rw [h], by rw [h], ?_, ?_⟩
  · rw [h]
    intro hmem
    exact (mem_deleteOtpVerification.mp hmem).2 ⟨rfl, rfl⟩
  · rw [h]
    exact deleteOtpVerification_pair_free _ identifier ty

/-- C7, witness: a concrete dispatch failure on a store holding one stale
record for the pair. -/
theorem dispatch_failure_rolls_back_witness :
    (requestOtp demoHash 400000 "+27821234567" "sms" "654321" failSend
        [demoRecord]).result = failSend ∧
    (requestOtp demoHash 400000 "+27821234567" "sms" "654321" failSend
        [demoRecord]).store =
      deleteOtpVerification
        (cleanupExpiredOtps [demoRecord] 400000
          ++ [newOtpRecord demoHash 400000 "+27821234567" "sms" "654321" [demoRecord]])
        "+27821234567" "sms" ∧
    newOtpRecord demoHash 400000 "+27821234567" "sms" "654321" [demoRecord] ∉
      (requestOtp demoHash 400000 "+27821234567" "sms" "654321" failSend
        [demoRecord]).store ∧
    (∀ r ∈ (requestOtp demoHash 400000 "+27821234567" "sms" "654321" failSend
        [demoRecord]).store,
      ¬(r.identifier = "+27821234567" ∧ r.type = "sms")) :=
  dispatch_failure_rolls_back demoHash 400000 "+27821234567" "sms" "654321" failSend
    [demoRecord] (fun _ => by decide) (fun h => absurd h (by decide)) (by decide)
    (by decide)

/-- C8: an sms request whose identifier fails phone validation returns the
validation error, leaves the store unchanged, and performs no store access at
all (no rate-limit query, no cleanup, no create). -/
theorem invalid_phone_no_stateful_work
    (hash : String → String) (now : Int) (identifier code : String)
    (sendResult : OtpServiceResult) (s : Store)
    (hv : isValidPhoneNumber identifier = false) :
    requestOtp hash now identifier "sms" code sendResult s =
      ⟨{ success := false, error := some invalidPhoneError }, s, []⟩ ∧
    (requestOtp hash now identifier "sms" code sendResult s).store = s ∧
    (requestOtp hash now identifier "sms" code sendResult s).ops = [] := by
  have h := @requestOtp_invalid_phone hash now identifier code sendResult s hv
  exact ⟨h, by rw [h], by rw [h]⟩

/-- C8, witness: the phone `"0821234567"` (no leading `+`) is rejected with
no stateful work. -/
theorem invalid_phone_no_stateful_work_witness :
    requestOtp demoHash 0 "0821234567" "sms" "123456" okSend [demoRecord] =
      ⟨{ success := false, error := some invalidPhoneError }, [demoRecord], []⟩ ∧
    (requestOtp demoHash 0 "0821234567" "sms" "123456" okSend [demoRecord]).store
      = [demoRecord] ∧
    (requestOtp demoHash 0 "0821234567" "sms" "123456" okSend [demoRecord]).ops = [] :=
  invalid_phone_no_stateful_work demoHash 0 "0821234567" "123456" okSend [demoRecord]
    (by decide)

/-- The stores arising from three successive successful requests for the same
pair at 0 s, 10 s and 20 s. -/
def demoStore1 : Store :=
  (requestOtp demoHash 0 "+27821234567" "sms" "111111" okSend []).store

def demoStore2 : Store :=
  (requestOtp demoHash 10000 "+27821234567" "sms" "222222" okSend demoStore1).store

def demoStore3 : Store :=
  (requestOtp demoHash 20000 "+27821234567" "sms" "333333" okSend demoStore2).store

/-- C3: after validation passes, `requestOtp` fails with the rate-limit error
exactly when at least 3 records for the pair were created in the trailing
60-second window; concretely, with requests at 0 s, 10 s, 20 s and 30 s for
one pair, the 3rd succeeds and the 4th is rejected with the rate-limit
error. -/
theorem rateLimit_iff_three_recent
    (hash : String → String) (now : Int) (identifier ty code : String)
    (sendResult : OtpServiceResult) (s : Store)
    (hv1 : ty = "sms" → isValidPhoneNumber identifier = true)
    (hv2 : ty = "email" → isValidEmail identifier = true)
    (hsend : sendResult.error ≠ some rateLimitError) :
    ((requestOtp hash now identifier ty code sendResult s).result.error
        = some rateLimitError ↔
      MAX_REQUESTS_PER_WINDOW ≤
        (getRecentOtpRequests s identifier ty (now - RATE_WINDOW_MS)).length) ∧
    ((requestOtp demoHash 20000 "+27821234567" "sms" "333333" okSend demoStore2).result.success = true ∧
      (requestOtp demoHash 30000 "+27821234567" "sms" "444444" okSend demoStore3).result.error = some rateLimitError) := by
  refine ⟨?_, by decide, by decide⟩
  have h := @requestOtp_valid_cases hash now identifier ty code sendResult s hv1 hv2
  by_cases hrl : checkRateLimit s now identifier ty = true
  · have hlt : (getRecentOtpRequests s identifier ty (now - RATE_WINDOW_MS)).length
        < MAX_REQUESTS_PER_WINDOW := of_decide_eq_true hrl
    rw [h]
    by_cases hsendok : sendResult.success = true
    · simp only [hrl, hsendok, eq_self_iff_true, if_true]
      exact iff_of_false (by simp) (by omega)
    · have hsf : sendResult.success = false := Bool.eq_false_iff.mpr hsendok
      simp only [hrl, hsf, eq_self_iff_true, if_true, Bool.false_eq_true, if_false]
      exact iff_of_false hsend (by omega)
  · have hrlf : checkRateLimit s now identifier ty = false := Bool.eq_false_iff.mpr hrl
    have hge : MAX_REQUESTS_PER_WINDOW ≤
        (getRecentOtpRequests s identifier ty (now - RATE_WINDOW_MS)).length := by
      rw [checkRateLimit] at hrlf
      have := of_decide_eq_false hrlf
      omega
    rw [h]
    simp only [hrlf, Bool.false_eq_true, if_false]
    exact iff_of_true trivial hge

/-- C3, witness: the rate-limit characterization at the concrete 4th request
(3 records already in the window). -/
theorem rateLimit_iff_three_recent_witness :
    ((requestOtp demoHash 30000 "+27821234567" "sms" "444444" okSend demoStore3).result.error = some rateLimitError ↔
      MAX_REQUESTS_PER_WINDOW ≤
        (getRecentOtpRequests demoStore3 "+27821234567" "sms"
          (30000 - RATE_WINDOW_MS)).length) ∧
    ((requestOtp demoHash 20000 "+27821234567" "sms" "333333" okSend demoStore2).result.success = true ∧
      (requestOtp demoHash 30000 "+27821234567" "sms" "444444" okSend demoStore3).result.error = some rateLimitError) :=
  rateLimit_iff_three_recent demoHash 30000 "+27821234567" "sms" "444444" okSend
    demoStore3 (fun _ => by decide) (fun h => absurd h (by decide)) (by decide)

/-- The store after issuing two codes (0 s and 1 s, two identifiers) and
verifying the first (at 2 s). -/
def statsStore : Store :=
  (verifyOtp demoHash 2000 "+27821234567" "111111" "sms"
    (requestOtp demoHash 1000 "+27831234567" "sms" "222222" okSend
      (requestOtp demoHash 0 "+27821234567" "sms" "111111" okSend []).store).store).2

/-- C9: `getOtpStats` returns the total row count, the `isUsed` count, the
count of rows created in the last 24 h, and a success rate that is
`round(100·verified/sent)` as an integer in `[0, 100]` (0 on an empty store);
on the empty store it is `⟨0,0,0,0⟩`, and after issuing 2 and verifying 1 it
is `⟨2,1,50,2⟩`. -/
theorem getOtpStats_spec :
    (∀ (s : Store) (now : Int),
      (getOtpStats s now).totalSent = s.length ∧
      (getOtpStats s now).totalVerified = (s.filter fun r => r.isUsed).length ∧
      (getOtpStats s now).recentRequests =
        (s.filter fun r => decide (now - 24 * 60 * 60 * 1000 ≤ r.createdAt)).length ∧
      (s.length = 0 → (getOtpStats s now).successRate = 0) ∧
      (0 < s.length → (getOtpStats s now).successRate =
        jsRound (100 * ((s.filter fun r => r.isUsed).length : ℚ) / (s.length : ℚ))) ∧
      0 ≤ (getOtpStats s now).successRate ∧
      (getOtpStats s now).successRate ≤ 100) ∧
    getOtpStats [] 0 = ⟨0, 0, 0, 0⟩ ∧
    getOtpStats statsStore 2000 = ⟨2, 1, 50, 2⟩ := by
  refine ⟨?_, by decide, ?_⟩
  · intro s now
    have hv : ((s.filter fun r => r.isUsed).length : ℚ) ≤ (s.length : ℚ) := by
      exact_mod_cast s.length_filter_le _
    have hrate : (getOtpStats s now).successRate =
        if 0 < s.length then
          jsRound (((s.filter fun r => r.isUsed).length : ℚ) / (s.length : ℚ) * 100)
        else 0 := rfl
    refine ⟨rfl, rfl, rfl, ?_, ?_, ?_, ?_⟩
    · intro h0
      rw [hrate, h0]
      simp
    · intro hpos
      rw [hrate, if_pos hpos]
      congr 1
      ring
    · rw [hrate]
      by_cases hpos : 0 < s.length
      · rw [if_pos hpos]
        have hq : (0 : ℚ) ≤ ((s.filter fun r => r.isUsed).length : ℚ) / (s.length : ℚ) * 100 := by
          positivity
        rw [jsRound]
        exact Int.le_floor.mpr (by push_cast; linarith)
      · rw [if_neg hpos]
    · rw [hrate]
      by_cases hpos : 0 < s.length
      · rw [if_pos hpos]
        have hn : (0 : ℚ) < (s.length : ℚ) := by exact_mod_cast hpos
        have hq : ((s.filter fun r => r.isUsed).length : ℚ) / (s.length : ℚ) * 100 ≤ 100 := by
          have h1 : ((s.filter fun r => r.isUsed).length : ℚ) / (s.length : ℚ) ≤ 1 :=
            (div_le_one hn).mpr hv
          linarith
        rw [jsRound]
        have : (((s.filter fun r => r.isUsed).length : ℚ) / (s.length : ℚ) * 100 + 1 / 2)
            < 101 := by linarith
        have hfl := Int.floor_lt.mpr (by push_cast; linarith : (((s.filter fun r => r.isUsed).length : ℚ) / (s.length : ℚ) * 100 + 1 / 2) < ((101 : ℤ) : ℚ))
        omega
      · rw [if_neg hpos]; norm_num
  · have hs : statsStore =
        [{ id := 1, identifier := "+27821234567", type := "sms", code := "111111",
           hashedCode := "111111#", attempts := 0, isUsed := true,
           expiresAt := 300000, createdAt := 0 },
         { id := 2, identifier := "+27831234567", type := "sms", code := "222222",
           hashedCode := "222222#", attempts := 0, isUsed := false,
           expiresAt := 301000, createdAt := 1000 }] := by rfl
    rw [hs, getOtpStats]
    norm_num [jsRound]

/-- C9, witness: the per-store characterization instantiated at the concrete
two-record scenario store. -/
theorem getOtpStats_spec_witness :
    (getOtpStats statsStore 2000).totalSent = statsStore.length ∧
    (statsStore.length = 0 → (getOtpStats statsStore 2000).successRate = 0) ∧
    (0 < statsStore.length → (getOtpStats statsStore 2000).successRate =
      jsRound (100 * ((statsStore.filter fun r => r.isUsed).length : ℚ)
        / (statsStore.length : ℚ))) ∧
    0 ≤ (getOtpStats statsStore 2000).successRate ∧
    (getOtpStats statsStore 2000).successRate ≤ 100 := by
  obtain ⟨h1, -, -, h4, h5, h6, h7⟩ := getOtpStats_spec.1 statsStore 2000
  exact ⟨h1, h4, h5, h6, h7⟩

/-- C10: every deletion keyed by `(identifier, channel)` — the
dispatch-failure rollback, the expired-at-verify deletion, and the
max-attempts deletion — is the pair-wide `deleteOtpVerification`, which
removes ALL stored rows for the pair (including older pending ones), keeping
exactly the rows of other pairs. -/
theorem pair_delete_removes_all_records :
    (∀ (s : Store) (identifier ty : String) (r : OtpRecord),
      r ∈ deleteOtpVerification s identifier ty ↔
        (r ∈ s ∧ ¬(r.identifier = identifier ∧ r.type = ty))) ∧
    (∀ (hash : String → String) (now : Int) (identifier code ty : String)
        (s : Store) (otpRecord : OtpRecord),
      getOtpVerification s identifier ty = some otpRecord →
      otpRecord.expiresAt < now →
      (verifyOtp hash now identifier code ty s).2 =
        deleteOtpVerification s identifier ty) ∧
    (∀ (hash : String → String) (now : Int) (identifier code ty : String)
        (s : Store) (otpRecord : OtpRecord),
      getOtpVerification s identifier ty = some otpRecord →
      ¬otpRecord.expiresAt < now →
      MAX_ATTEMPTS ≤ otpRecord.attempts →
      (verifyOtp hash now identifier code ty s).2 =
        deleteOtpVerification s identifier ty) ∧
    (∀ (hash : String → String) (now : Int) (identifier ty code : String)
        (sendResult : OtpServiceResult) (s : Store),
      (ty = "sms" → isValidPhoneNumber identifier = true) →
      (ty = "email" → isValidEmail identifier = true) →
      checkRateLimit s now identifier ty = true →
      sendResult.success = false →
      (requestOtp hash now identifier ty code sendResult s).store =
        deleteOtpVerification
          (cleanupExpiredOtps s now ++ [newOtpRecord hash now identifier ty code s])
          identifier ty) := by
  refine ⟨?_, ?_, ?_, ?_⟩
  · intro s identifier ty r
    exact mem_deleteOtpVerification
  · intro hash now identifier code ty s otpRecord hlook hexp
    rw [verifyOtp_expired hlook hexp]
  · intro hash now identifier code ty s otpRecord hlook hexp hatt
    rw [verifyOtp_too_many hlook hexp hatt]
  · intro hash now identifier ty code sendResult s hv1 hv2 hrl hsend
    rw [requestOtp_send_failed hv1 hv2 hrl hsend]

/-- C10, witness: the pair-wide deletion at concrete inputs — an older
pending second record for the pair is also removed by the expired-at-verify
deletion. -/
theorem pair_delete_removes_all_records_witness :
    (demoUsedRecord ∈
        deleteOtpVerification [demoRecord, demoUsedRecord] "+27831234567" "sms" ↔
      (demoUsedRecord ∈ [demoRecord, demoUsedRecord] ∧
        ¬(demoUsedRecord.identifier = "+27831234567" ∧ demoUsedRecord.type = "sms"))) ∧
    (verifyOtp demoHash 300001 "+27821234567" "123456" "sms"
        [demoRecord, { demoRecord with id := 2, createdAt := 1, expiresAt := 299000 }]).2 =
      deleteOtpVerification
        [demoRecord, { demoRecord with id := 2, createdAt := 1, expiresAt := 299000 }]
        "+27821234567" "sms" ∧
    (verifyOtp demoHash 12 "+27821234567" "123456" "sms"
        [{ demoRecord with attempts := 3 }]).2 =
      deleteOtpVerification [{ demoRecord with attempts := 3 }] "+27821234567" "sms" ∧
    (requestOtp demoHash 400000 "+27821234567" "sms" "654321" failSend
        [demoRecord]).store =
      deleteOtpVerification
        (cleanupExpiredOtps [demoRecord] 400000
          ++ [newOtpRecord demoHash 400000 "+27821234567" "sms" "654321" [demoRecord]])
        "+27821234567" "sms" :=
  ⟨pair_delete_removes_all_records.1 [demoRecord, demoUsedRecord] "+27831234567" "sms"
      demoUsedRecord,
    pair_delete_removes_all_records.2.1 demoHash 300001 "+27821234567" "123456" "sms"
      [demoRecord, { demoRecord with id := 2, createdAt := 1, expiresAt := 299000 }]
      { demoRecord with id := 2, createdAt := 1, expiresAt := 299000 }
      (by decide) (by decide),
    pair_delete_removes_all_records.2.2.1 demoHash 12 "+27821234567" "123456" "sms"
      [{ demoRecord with attempts := 3 }] { demoRecord with attempts := 3 }
      (by decide) (by decide) (by decide),
    pair_delete_removes_all_records.2.2.2 demoHash 400000 "+27821234567" "sms" "654321"
      failSend [demoRecord] (fun _ => by decide) (fun h => absurd h (by decide))
      (by decide) (by decide)⟩

end NationalDialogue
